/-
Verification of the Broadlink LIFAair purifier fan adapter
(homeassistant/components/broadlink/fan.py).

The adapter translates between the platform fan abstraction
(percentage 0-100, named preset modes) and the vendor protocol
(fan speed 0-121, enumerated FanMode).  We embed the module's pure
conversion helpers and its entity operations as Lean functions; each
entity operation returns the updated entity attribute state together
with the list of vendor calls it issued, in order.  An operation that
can raise (the enum lookup in async_set_preset_mode) returns an
Option state: none means the exception propagated to the caller, and
the call list then holds exactly the vendor calls issued before the
raise.
-/
import Mathlib

set_option maxRecDepth 40000

namespace BroadlinkFan

/-- The vendor fan mode enumeration.  Modelled from the spec: the type
comes from the external broadlink.purifier library (not part of this
repository); the spec names its members OFF, AUTO, MANUAL and UNKNOWN. -/
inductive FanMode where
  | OFF
  | AUTO
  | MANUAL
  | UNKNOWN
deriving DecidableEq, BEq, Fintype

/-- Python enum member name, as `m.name` returns it. -/
def FanMode.pyName : FanMode → String
  | .OFF => "OFF"
  | .AUTO => "AUTO"
  | .MANUAL => "MANUAL"
  | .UNKNOWN => "UNKNOWN"

/-- The members of the enum in declaration order, as Python iterates them. -/
def fanModeMembers : List FanMode := [.OFF, .AUTO, .MANUAL, .UNKNOWN]

/-- MAX_FAN_SPEED = 121 from the source. -/
def MAX_FAN_SPEED : Int := 121

/-- Python's built-in round applied to the exact rational a/b (with b > 0):
round to nearest, ties to even.  The source computes round(a/b) through
float division; on every input the claims range over, the exact value a/b
is a multiple of 1/100 or 1/121, so its distance from a half-integer is
either 0 (and then the float value is exactly representable, e.g. 60.5)
or at least 1/242, which dwarfs the float division error; hence the float
computation agrees with this exact rational rounding on those inputs. -/
def pythonRound (a b : Int) : Int :=
  let q := a.ediv b
  let r := a.emod b
  if 2 * r < b then q
  else if b < 2 * r then q + 1
  else if q.emod 2 = 0 then q else q + 1

/-- round(MAX_FAN_SPEED * percentage / 100) from the source. -/
def _fan_percentage_to_speed (percentage : Int) : Int :=
  pythonRound (MAX_FAN_SPEED * percentage) 100

/-- round(100 * fan_speed / MAX_FAN_SPEED) from the source. -/
def _fan_speed_to_percentage (fan_speed : Int) : Int :=
  pythonRound (100 * fan_speed) MAX_FAN_SPEED

/-- Python str.lower, character by character (the names in play are ASCII,
where Char.toLower agrees with Python). -/
def pyLower (s : String) : String := String.mk (s.data.map Char.toLower)

/-- Python str.upper, character by character (the names in play are ASCII,
where Char.toUpper agrees with Python). -/
def pyUpper (s : String) : String := String.mk (s.data.map Char.toUpper)

/-- fan_mode.name.lower() from the source. -/
def _fan_mode_to_name (fan_mode : FanMode) : String :=
  pyLower fan_mode.pyName

/-- FanMode[fan_mode_name.upper()] from the source.  Python raises KeyError
when no member has that name; we return none in that case. -/
def _fan_name_to_mode (fan_mode_name : String) : Option FanMode :=
  fanModeMembers.find? (fun m => m.pyName == pyUpper fan_mode_name)

/-- The static _attr_preset_modes list from the source:
lowercase names of all members except OFF and UNKNOWN. -/
def _attr_preset_modes : List String :=
  (fanModeMembers.filter (fun e => !(e == FanMode.OFF || e == FanMode.UNKNOWN))).map
    _fan_mode_to_name

/-- The entity attribute state mutated by the adapter. -/
structure FanState where
  _attr_available : Bool
  _attr_preset_mode : Option String
  _attr_percentage : Option Int
deriving DecidableEq

/-- Modelled from the spec: the platform base-class property `available`,
backed by the corresponding attribute (the base classes are external to
this file). -/
def FanState.available (st : FanState) : Bool := st._attr_available

/-- Modelled from the spec: the platform base-class property `preset_mode`,
backed by the corresponding attribute. -/
def FanState.preset_mode (st : FanState) : Option String := st._attr_preset_mode

/-- Modelled from the spec: the platform base-class property `percentage`,
backed by the corresponding attribute. -/
def FanState.percentage (st : FanState) : Option Int := st._attr_percentage

/-- A vendor API call issued through the device request channel. -/
inductive VendorCall where
  | set_fan_mode (m : FanMode)
  | set_fan_speed (s : Int)
deriving DecidableEq

/-- The coordinator state push consumed by _update_state: the mapping may
contain `fan_mode` and `fan_speed` keys (other keys are ignored by the
handler). -/
structure StateData where
  fan_mode : Option FanMode
  fan_speed : Option Int
deriving DecidableEq

/-- The _update_state handler: sets _attr_available from the presence of
fan_mode; when available, derives _attr_preset_mode (None for OFF) and,
when fan_speed is present, _attr_percentage.  It issues no vendor call;
the empty call list records that. -/
def update_state (st : FanState) (data : StateData) : FanState × List VendorCall :=
  let fan_mode := data.fan_mode
  let st := { st with _attr_available := fan_mode.isSome }
  match fan_mode with
  | none => (st, [])
  | some fm =>
    let st := { st with
      _attr_preset_mode := if fm ≠ FanMode.OFF then some (_fan_mode_to_name fm) else none }
    match data.fan_speed with
    | none => (st, [])
    | some fs => ({ st with _attr_percentage := some (_fan_speed_to_percentage fs) }, [])

/-- The _async_turn_on_if_needed helper: when forced or when preset_mode is
None, issues set_fan_mode(AUTO) through the device and reports true;
otherwise issues nothing and reports false.  The direct device request does
not mutate the entity attributes (any later state change arrives through a
separate coordinator push). -/
def async_turn_on_if_needed (st : FanState) (force : Bool) :
    FanState × List VendorCall × Bool :=
  if force || st.preset_mode.isNone then
    (st, [VendorCall.set_fan_mode FanMode.AUTO], true)
  else
    (st, [], false)

/-- The async_set_percentage operation: turn on if needed, convert, then
issue set_fan_speed. -/
def async_set_percentage (st : FanState) (percentage : Int) :
    FanState × List VendorCall :=
  let r := async_turn_on_if_needed st false
  let fan_speed := _fan_percentage_to_speed percentage
  (r.1, r.2.1 ++ [VendorCall.set_fan_speed fan_speed])

/-- The async_set_preset_mode operation.  A failed enum lookup propagates
(result state none) before any vendor call.  MANUAL is rerouted through
async_set_percentage with the current percentage (default 50).  Otherwise
turn on if needed, then issue set_fan_mode unless the turn-on step already
set AUTO and AUTO is also the requested mode. -/
def async_set_preset_mode (st : FanState) (preset_mode : String) :
    Option FanState × List VendorCall :=
  match _fan_name_to_mode preset_mode with
  | none => (none, [])
  | some fan_mode =>
    if fan_mode = FanMode.MANUAL then
      let p := st.percentage
      let r := async_set_percentage st (p.getD 50)
      (some r.1, r.2)
    else
      let r := async_turn_on_if_needed st false
      let wasSetToAuto := r.2.2
      if ¬(wasSetToAuto = true ∧ fan_mode = FanMode.AUTO) then
        (some r.1, r.2.1 ++ [VendorCall.set_fan_mode fan_mode])
      else
        (some r.1, r.2.1)

/-- The async_turn_on operation: percentage first, then preset_mode, else a
forced turn-on-if-needed. -/
def async_turn_on (st : FanState) (percentage : Option Int)
    (preset_mode : Option String) : Option FanState × List VendorCall :=
  match percentage with
  | some p =>
    let r := async_set_percentage st p
    (some r.1, r.2)
  | none =>
    match preset_mode with
    | some pm => async_set_preset_mode st pm
    | none =>
      let r := async_turn_on_if_needed st true
      (some r.1, r.2.1)

/-- The async_turn_off operation: unconditionally issue set_fan_mode(OFF). -/
def async_turn_off (st : FanState) : FanState × List VendorCall :=
  (st, [VendorCall.set_fan_mode FanMode.OFF])

/-- C1 (counterexample): the claim asserts the conversions are lossy in both
directions, but the percentage direction never loses information: no
percentage p in [0,100] has a failing round trip, so the claimed conjunction
of the two existentials is false. -/
theorem C1_counterexample :
    ¬ ((∃ p : Nat, p < 101 ∧
          _fan_speed_to_percentage (_fan_percentage_to_speed p) ≠ p) ∧
       (∃ s : Nat, s < 122 ∧
          _fan_percentage_to_speed (_fan_speed_to_percentage s) ≠ s)) :=
  fun h => absurd h.1 (by decide)

/-- C1 (amended): the round trip starting from a percentage is exact for
every p in [0,100]; only the speed direction is lossy: some vendor speed s
in [0,121] (for instance 61) does not survive speed → percentage → speed. -/
theorem C1_roundtrip_lossiness :
    (∀ p : Nat, p < 101 →
      _fan_speed_to_percentage (_fan_percentage_to_speed p) = p) ∧
    (∃ s : Nat, s < 122 ∧
      _fan_percentage_to_speed (_fan_speed_to_percentage s) ≠ s) :=
  ⟨by decide, 61, by decide, by decide⟩

/-- Witness for C1: the percentage round trip is exact at p = 50 (whose
forward conversion hits the tie 60.5). -/
theorem C1_roundtrip_lossiness_witness :
    _fan_speed_to_percentage (_fan_percentage_to_speed 50) = 50 :=
  C1_roundtrip_lossiness.1 50 (by decide)

/-- C2: with preset_mode None, async_set_preset_mode "auto" issues exactly
one vendor call, set_fan_mode(AUTO); and in general (for any resolved
non-MANUAL mode) the mode-set call is skipped exactly when the turn-on step
reported it issued the AUTO command and the requested mode is AUTO. -/
theorem C2_set_preset_auto_single_call :
    (∀ st : FanState, st.preset_mode = none →
      async_set_preset_mode st "auto" =
        (some st, [VendorCall.set_fan_mode FanMode.AUTO])) ∧
    (∀ (st : FanState) (s : String) (m : FanMode),
      _fan_name_to_mode s = some m → m ≠ FanMode.MANUAL →
      ((async_set_preset_mode st s).2 = (async_turn_on_if_needed st false).2.1 ↔
        (async_turn_on_if_needed st false).2.2 = true ∧ m = FanMode.AUTO)) := by
  constructor
  · intro st h
    have hauto : _fan_name_to_mode "auto" = some FanMode.AUTO := rfl
    simp [async_set_preset_mode, hauto, async_turn_on_if_needed, h]
  · intro st s m hm hnm
    by_cases hcond :
      (async_turn_on_if_needed st false).2.2 = true ∧ m = FanMode.AUTO
    · simp [async_set_preset_mode, hm, hnm, hcond]
    · simp [async_set_preset_mode, hm, hnm, hcond]

/-- Witness for C2: from the all-attributes-cleared state, requesting the
auto preset issues the single AUTO call. -/
theorem C2_witness :
    async_set_preset_mode ⟨false, none, none⟩ "auto" =
      (some ⟨false, none, none⟩, [VendorCall.set_fan_mode FanMode.AUTO]) :=
  C2_set_preset_auto_single_call.1 ⟨false, none, none⟩ rfl

/-- C3: async_turn_on with no arguments issues exactly one vendor call,
set_fan_mode(AUTO), from any starting state; and a percentage argument takes
priority over a preset_mode argument: only the set-percentage path runs. -/
theorem C3_turn_on_dispatch :
    ∀ (st : FanState) (p : Int) (pm : Option String),
      async_turn_on st none none =
        (some st, [VendorCall.set_fan_mode FanMode.AUTO]) ∧
      async_turn_on st (some p) pm =
        (some (async_set_percentage st p).1, (async_set_percentage st p).2) :=
  fun _ _ _ => ⟨rfl, rfl⟩

/-- C4: async_set_preset_mode "manual" behaves exactly as
async_set_percentage at the current percentage (50 when unset) and never
issues a raw set_fan_mode(MANUAL) vendor call. -/
theorem C4_manual_preset_via_percentage :
    ∀ st : FanState,
      async_set_preset_mode st "manual" =
        (some (async_set_percentage st (st.percentage.getD 50)).1,
          (async_set_percentage st (st.percentage.getD 50)).2) ∧
      VendorCall.set_fan_mode FanMode.MANUAL ∉ (async_set_preset_mode st "manual").2 := by
  intro st
  refine ⟨rfl, ?_⟩
  have h1 : (async_set_preset_mode st "manual").2 =
      (async_turn_on_if_needed st false).2.1 ++
        [VendorCall.set_fan_speed (_fan_percentage_to_speed (st.percentage.getD 50))] := rfl
  rw [h1]
  unfold async_turn_on_if_needed
  cases hb : st.preset_mode.isNone <;> simp

/-- C5: a state push without a fan_mode key sets available to False, leaves
preset_mode and percentage unchanged; and _update_state never issues a
vendor call on any input. -/
theorem C5_update_state_no_fan_mode :
    (∀ (st : FanState) (data : StateData), data.fan_mode = none →
      update_state st data = ({ st with _attr_available := false }, [])) ∧
    (∀ (st : FanState) (data : StateData), (update_state st data).2 = []) := by
  constructor
  · intro st data h
    simp [update_state, h]
  · intro st data
    obtain ⟨fm, fs⟩ := data
    cases fm <;> cases fs <;> rfl

/-- Witness for C5: a push with no fan_mode (but a fan_speed) only clears
availability, leaving preset_mode and percentage as they were. -/
theorem C5_witness :
    update_state ⟨true, some "auto", some 40⟩ ⟨none, some 7⟩ =
      (⟨false, some "auto", some 40⟩, []) :=
  C5_update_state_no_fan_mode.1 ⟨true, some "auto", some 40⟩ ⟨none, some 7⟩ rfl

/-- C6: a state push whose fan_mode is OFF sets available to True and
preset_mode to None; any other present fan_mode sets preset_mode to the
lowercase name of that mode. -/
theorem C6_update_state_with_fan_mode :
    ∀ (st : FanState) (data : StateData) (m : FanMode), data.fan_mode = some m →
      (update_state st data).1._attr_available = true ∧
      (update_state st data).1._attr_preset_mode =
        (if m = FanMode.OFF then none else some (_fan_mode_to_name m)) := by
  intro st data m h
  by_cases hm : m = FanMode.OFF <;>
    cases hs : data.fan_speed <;>
      simp [update_state, h, hs, hm]

/-- Witness for C6: a push with fan_mode OFF marks the entity available and
clears the preset mode. -/
theorem C6_witness :
    (update_state ⟨false, some "manual", some 40⟩
        ⟨some FanMode.OFF, none⟩).1._attr_available = true ∧
    (update_state ⟨false, some "manual", some 40⟩
        ⟨some FanMode.OFF, none⟩).1._attr_preset_mode =
      (if FanMode.OFF = FanMode.OFF then none else some (_fan_mode_to_name FanMode.OFF)) :=
  C6_update_state_with_fan_mode ⟨false, some "manual", some 40⟩
    ⟨some FanMode.OFF, none⟩ FanMode.OFF rfl

/-- C7: a preset name whose uppercased form names no FanMode member makes
async_set_preset_mode fail on the enum lookup: the error propagates (no
result state) and no vendor call is issued. -/
theorem C7_unknown_preset_error_propagates :
    ∀ (st : FanState) (s : String),
      (∀ m : FanMode, m.pyName ≠ pyUpper s) →
      async_set_preset_mode st s = (none, []) := by
  intro st s h
  have hn : _fan_name_to_mode s = none := by
    apply List.find?_eq_none.mpr
    intro m _
    simp [h m]
  simp [async_set_preset_mode, hn]

/-- Witness for C7: the unknown preset name "cool" fails before any vendor
call, whatever the current state. -/
theorem C7_witness :
    async_set_preset_mode ⟨true, some "auto", some 40⟩ "cool" = (none, []) :=
  C7_unknown_preset_error_propagates ⟨true, some "auto", some 40⟩ "cool" (by decide)

/-- C8: the percentage-to-speed conversion maps [0,100] into [0,121] and the
speed-to-percentage conversion maps [0,121] into [0,100]. -/
theorem C8_conversion_bounds :
    (∀ p : Nat, p < 101 →
      0 ≤ _fan_percentage_to_speed p ∧ _fan_percentage_to_speed p ≤ 121) ∧
    (∀ s : Nat, s < 122 →
      0 ≤ _fan_speed_to_percentage s ∧ _fan_speed_to_percentage s ≤ 100) :=
  ⟨by decide, by decide⟩

/-- Witness for C8: the extreme percentage 100 maps to the top vendor
speed, inside the bounds. -/
theorem C8_witness :
    0 ≤ _fan_percentage_to_speed 100 ∧ _fan_percentage_to_speed 100 ≤ 121 :=
  C8_conversion_bounds.1 100 (by decide)

/-- C9: a push with fan_mode OFF and a fan_speed still updates percentage
from that speed (the OFF case only clears preset_mode); a push with a
fan_mode but no fan_speed leaves percentage unchanged. -/
theorem C9_off_percentage_update :
    (∀ (st : FanState) (data : StateData) (s : Int),
      data.fan_mode = some FanMode.OFF → data.fan_speed = some s →
      (update_state st data).1._attr_percentage =
        some (_fan_speed_to_percentage s)) ∧
    (∀ (st : FanState) (data : StateData) (m : FanMode),
      data.fan_mode = some m → data.fan_speed = none →
      (update_state st data).1._attr_percentage = st._attr_percentage) := by
  constructor
  · intro st data s h1 h2
    simp [update_state, h1, h2]
  · intro st data m h1 h2
    simp [update_state, h1, h2]

/-- Witness for C9: fan_mode OFF with fan_speed 61 still refreshes the
percentage attribute. -/
theorem C9_witness :
    (update_state ⟨false, some "auto", some 40⟩
        ⟨some FanMode.OFF, some 61⟩).1._attr_percentage =
      some (_fan_speed_to_percentage 61) :=
  C9_off_percentage_update.1 ⟨false, some "auto", some 40⟩
    ⟨some FanMode.OFF, some 61⟩ 61 rfl rfl

/-- C10: lowercase-then-uppercase name conversion round-trips on every
FanMode member, the declared preset-mode list has no duplicates, and each of
its strings resolves back to a FanMode member. -/
theorem C10_mode_name_roundtrip :
    (∀ m : FanMode, _fan_name_to_mode (_fan_mode_to_name m) = some m) ∧
    _attr_preset_modes.Nodup ∧
    (∀ s ∈ _attr_preset_modes, (_fan_name_to_mode s).isSome = true) :=
  ⟨by decide, by decide, by decide⟩

/-- Witness for C10: the declared preset name "auto" resolves to a member. -/
theorem C10_witness : (_fan_name_to_mode "auto").isSome = true :=
  C10_mode_name_roundtrip.2.2 "auto" (by decide)

end BroadlinkFan
